import Mathlib

/-!
# Verification of hypercorn's WebSocket stream (src/hypercorn/protocol/ws_stream.py)

A shallow embedding of the `Handshake`, `WebsocketBuffer` and `WSStream`
classes of `ws_stream.py`.  Header byte strings are modelled as Lean
`String`s (the source only applies latin-1/ascii-safe operations: ASCII
lowercasing, comma splitting and equality).  Python exceptions are modelled
explicitly: a step returns the events it emitted before the exception and
an error tag.  The wsproto library is an external collaborator: its
parser/serializer is modelled at the frame level (a `Data` protocol event
carries the wsproto frame that `Connection.send` serialized; inbound bytes
are given as the list of wsproto events they parse to), and its connection
state machine (`OPEN / REMOTE_CLOSING / LOCAL_CLOSING / CLOSED`, with
`LocalProtocolError` on sends in a wrong state) is embedded directly.
-/

namespace WsStream

deriving instance DecidableEq for Except

/-- Python exceptions that `ws_stream.py` (or a library call it makes) can raise. -/
inductive PyErr
  | attributeError
  | typeError (msg : String)
  | keyError
  | valueError
  | localProtocolError
  | invalidSubprotocol
  | unexpectedMessage
deriving DecidableEq, Repr

/-- `ASGIWebsocketState` from ws_stream.py. -/
inductive ASGIWebsocketState
  | HANDSHAKE
  | CONNECTED
  | RESPONSE
  | CLOSED
  | HTTPCLOSED
deriving DecidableEq, Repr

/-- wsproto events (wsproto.events) that ws_stream.py consumes or produces.
Text payloads are strings, binary payloads are byte lists. -/
inductive WSProtoEvent
  | textMessage (data : String) (message_finished : Bool)
  | bytesMessage (data : List Nat) (message_finished : Bool)
  | ping (payload : List Nat)
  | pong (payload : List Nat)
  | closeConnection (code : Nat)
deriving DecidableEq, Repr

/-- wsproto.connection.ConnectionState (the variants ws_stream.py can reach). -/
inductive ConnState
  | OPEN
  | REMOTE_CLOSING
  | LOCAL_CLOSING
  | CLOSED
deriving DecidableEq, Repr

/-- wsproto.frame_protocol.CloseReason.NORMAL_CLOSURE -/
def NORMAL_CLOSURE : Nat := 1000

/-- wsproto.frame_protocol.CloseReason.ABNORMAL_CLOSURE -/
def ABNORMAL_CLOSURE : Nat := 1006

/-- wsproto.frame_protocol.CloseReason.MESSAGE_TOO_BIG -/
def MESSAGE_TOO_BIG : Nat := 1009

/-- wsproto.handshake.WEBSOCKET_VERSION (the bytes b"13"). -/
def WEBSOCKET_VERSION : String := "13"

/-- ASCII lowercasing of one character (Python bytes.lower / str.lower on the
ASCII header values the source compares). -/
def asciiLowerChar (c : Char) : Char :=
  if 'A' ≤ c ∧ c ≤ 'Z' then Char.ofNat (c.toNat + 32) else c

/-- ASCII lowercasing of a header byte string. -/
def asciiLower (s : String) : String :=
  ⟨s.data.map asciiLowerChar⟩

/-- Whitespace characters stripped by Python str.strip. -/
def isPySpace (c : Char) : Bool :=
  c = ' ' ∨ c = '\t' ∨ c = '\n' ∨ c = '\r' ∨ c = '\x0b' ∨ c = '\x0c'

/-- Python str.strip: drop leading and trailing whitespace. -/
def pyStrip (s : String) : String :=
  ⟨((s.data.dropWhile isPySpace).reverse.dropWhile isPySpace).reverse⟩

/-- Whether a header name begins with a colon (a pseudo-header). -/
def startsWithColon (s : String) : Bool :=
  match s.data with
  | [] => false
  | c :: _ => c = ':'

/-- Python lexicographic string comparison (used by the source on HTTP
version strings such as "1.0" < "1.1"). -/
def pyStrLtChars : List Char → List Char → Bool
  | [], [] => false
  | [], _ :: _ => true
  | _ :: _, [] => false
  | a :: as, b :: bs => if a = b then pyStrLtChars as bs else decide (a.toNat < b.toNat)

/-- Python `a < b` on strings. -/
def pyStrLt (a b : String) : Bool :=
  pyStrLtChars a.data b.data

/-- Split a character list at commas. -/
def splitCommaChars : List Char → List (List Char)
  | [] => [[]]
  | c :: rest =>
    match splitCommaChars rest with
    | [] => [[]]
    | hd :: tl => if c = ',' then [] :: hd :: tl else (c :: hd) :: tl

/-- wsproto.utilities.split_comma_header: split on commas and strip whitespace. -/
def split_comma_header (value : String) : List String :=
  (splitCommaChars value.data).map (fun piece => pyStrip ⟨piece⟩)

/-- External collaborator: wsproto.utilities.generate_accept_token.  Per spec
section 6 the Sec-WebSocket-Accept value is a deterministic pure function of the
client key (base64 of SHA-1 of key plus a fixed GUID).  The hash internals live
in the external wsproto library, outside this repository, so the token is
modelled as a deterministic tag of the key. -/
def generate_accept_token (key : String) : String :=
  "accept-token(" ++ key ++ ")"

/-- The `Handshake` object of ws_stream.py after `__init__` ran: one optional
field per recognised request header. -/
structure Handshake where
  http_version : String
  connection_tokens : Option (List String) := none
  extensions : Option (List String) := none
  key : Option String := none
  subprotocols : Option (List String) := none
  upgrade : Option String := none
  version : Option String := none
deriving DecidableEq, Repr

/-- One iteration of the header loop in `Handshake.__init__`: lowercase the
name and store the value in the matching field. -/
def Handshake.setHeader (h : Handshake) (p : String × String) : Handshake :=
  let name := asciiLower p.1
  if name = "connection" then { h with connection_tokens := some (split_comma_header p.2) }
  else if name = "sec-websocket-extensions" then
    { h with extensions := some (split_comma_header p.2) }
  else if name = "sec-websocket-key" then { h with key := some p.2 }
  else if name = "sec-websocket-protocol" then
    { h with subprotocols := some (split_comma_header p.2) }
  else if name = "sec-websocket-version" then { h with version := some p.2 }
  else if name = "upgrade" then { h with upgrade := some p.2 }
  else h

/-- `Handshake.__init__`: scan the header list, lowercasing names; a later
occurrence of the same header overwrites an earlier one. -/
def Handshake.ofHeaders (headers : List (String × String)) (http_version : String) :
    Handshake :=
  headers.foldl Handshake.setHeader { http_version := http_version }

/-- The `any(token.lower() == "upgrade" for token in self.connection_tokens)`
test of `Handshake.is_valid`, together with the preceding None check. -/
def connectionHasUpgrade (ct : Option (List String)) : Bool :=
  match ct with
  | none => false
  | some toks => toks.any (fun t => decide (asciiLower t = "upgrade"))

/-- `Handshake.is_valid`.  Note the source reads `self.upgrade.lower()` without
a None check: when the key and connection checks pass on HTTP/1.1 but no
upgrade header was sent, Python raises AttributeError (None has no lower). -/
def Handshake.is_valid (h : Handshake) : Except PyErr Bool :=
  if pyStrLt h.http_version "1.1" = true then .ok false
  else if h.http_version = "1.1" then
    if h.key = none then .ok false
    else if connectionHasUpgrade h.connection_tokens = false then .ok false
    else
      match h.upgrade with
      | none => .error .attributeError
      | some u =>
        if asciiLower u ≠ "websocket" then .ok false
        else if h.version ≠ some WEBSOCKET_VERSION then .ok false
        else .ok true
  else
    if h.version ≠ some WEBSOCKET_VERSION then .ok false
    else .ok true

/-- `Handshake.accept`.  Returns (status_code, response headers, the new wsproto
server Connection — modelled by its initial state OPEN).  Raises on a
subprotocol the client did not offer; when the client sent no
sec-websocket-protocol header at all, `subprotocol not in None` raises
TypeError.  The extension negotiation branch reads
`if False and self.extensions is not None:` in the source — the guard is the
literal False, so `server_extensions_handshake` is never consulted and
`accepts` stays None. -/
def Handshake.accept (h : Handshake) (subprotocol : Option String) :
    Except PyErr (Nat × List (String × String) × ConnState) :=
  let headers₀ : Except PyErr (List (String × String)) :=
    match subprotocol with
    | none => .ok []
    | some sp =>
      match h.subprotocols with
      | none => .error (.typeError "argument of type NoneType is not iterable")
      | some sps =>
        if sp ∉ sps then .error .invalidSubprotocol
        else .ok [("sec-websocket-protocol", sp)]
  match headers₀ with
  | .error e => .error e
  | .ok hdrs₀ =>
    let accepts : Option String := none
    let hdrs₁ := hdrs₀ ++
      (match accepts with
       | some a => [("sec-websocket-extensions", a)]
       | none => [])
    let hdrs₂ := hdrs₁ ++
      (match h.key with
       | some k => [("sec-websocket-accept", generate_accept_token k)]
       | none => [])
    if h.http_version = "1.1" then
      .ok (101, hdrs₂ ++ [("upgrade", "WebSocket"), ("connection", "Upgrade")], .OPEN)
    else
      .ok (200, hdrs₂, .OPEN)

/-- The value held by a `WebsocketBuffer`: a Python str or bytes. -/
inductive BufVal
  | str (s : String)
  | bin (b : List Nat)
deriving DecidableEq, Repr

/-- Python `len` on the buffered value (characters of a str, bytes of a bytes). -/
def BufVal.len : BufVal → Nat
  | .str s => s.length
  | .bin b => b.length

/-- Outcome of `WebsocketBuffer.extend`. -/
inductive ExtendResult
  | ok (newval : BufVal)
  | tooLarge (newval : BufVal)
  | typeErr
deriving DecidableEq, Repr

/-- `WebsocketBuffer.extend`: initialise to the empty str/bytes on the first
fragment, append `event.data`, then raise FrameTooLarge when the length
exceeds max_length.  The append happens before the length check, so on
overflow the buffer already holds the oversized value.  Appending a bytes
fragment to a str buffer (or vice versa) is a Python TypeError. -/
def bufferExtend (value : Option BufVal) (max_length : Nat) (d : BufVal) : ExtendResult :=
  let newval : Option BufVal :=
    match value, d with
    | none, v => some v
    | some (.str s), .str t => some (.str (s ++ t))
    | some (.bin b), .bin c => some (.bin (b ++ c))
    | some (.str _), .bin _ => none
    | some (.bin _), .str _ => none
  match newval with
  | none => .typeErr
  | some v => if max_length < v.len then .tooLarge v else .ok v

/-- Messages delivered to the application task through `app_put`. -/
inductive AppMsg
  | connect
  | receive (bytes : Option (List Nat)) (text : Option String)
  | disconnect
deriving DecidableEq, Repr

/-- `WebsocketBuffer.to_message`: a websocket.receive message whose bytes
field carries a bytes buffer and whose text field carries a str buffer. -/
def bufferToMessage (value : Option BufVal) : AppMsg :=
  match value with
  | some (.bin b) => .receive (some b) none
  | some (.str s) => .receive none (some s)
  | none => .receive none none

/-- Server configuration fields consulted by WSStream.  config.py is not under
src/.  Modelled from the spec: `websocket_max_message_size` is the configured
max length of a buffered incoming message (spec section 4.2);
`websocket_permessage_deflate` stands for the PerMessage-Deflate toggle the
spec mandates ("configurable and default-off", spec section 9). -/
structure Config where
  websocket_max_message_size : Nat
  websocket_permessage_deflate : Bool := false
deriving DecidableEq, Repr

/-- Protocol events emitted by WSStream through `self.send` (the event
vocabulary of hypercorn/protocol/events.py, which is not under src/; modelled
from the spec, section 3, restricted to the variants WSStream emits).  A
`data` event carries the wsproto frame whose serialization is its payload. -/
inductive Event
  | response (stream_id : Nat) (status_code : Nat) (headers : List (String × String))
  | body (stream_id : Nat) (data : List Nat)
  | endBody (stream_id : Nat)
  | data (stream_id : Nat) (frame : WSProtoEvent)
  | endData (stream_id : Nat)
  | streamClosed (stream_id : Nat)
deriving DecidableEq, Repr

/-- The mutable attributes of a `WSStream` object.  `app_put` records whether
`spawn_app` assigned an app queue (i.e. the app task was spawned);
`connection` holds the wsproto connection state once `accept` created one;
`response` stores a pending websocket.http.response.start as (status,
headers). -/
structure WSStream where
  stream_id : Nat
  state : ASGIWebsocketState := .HANDSHAKE
  closed : Bool := false
  app_put : Bool := false
  handshake : Option Handshake := none
  connection : Option ConnState := none
  buffer : Option BufVal := none
  response : Option (Nat × List (String × String)) := none
deriving DecidableEq, Repr

/-- A freshly constructed WSStream (`WSStream.__init__`). -/
def WSStream.init (stream_id : Nat) : WSStream :=
  { stream_id := stream_id }

/-- The result of one handler call: the stream afterwards, the protocol events
passed to `self.send` (in order), the messages passed to `self.app_put` (in
order), and the exception that aborted the handler, if any.  Events emitted
before an exception are kept, as the corresponding awaits already ran. -/
structure StepResult where
  stream : WSStream
  events : List Event
  app : List AppMsg
  err : Option PyErr := none
deriving DecidableEq, Repr

/-- Sequencing of two handler fragments: stop at the first exception,
concatenate outputs otherwise. -/
def StepResult.seq (r : StepResult) (f : WSStream → StepResult) : StepResult :=
  match r.err with
  | some _ => r
  | none =>
    let r2 := f r.stream
    { stream := r2.stream, events := r.events ++ r2.events,
      app := r.app ++ r2.app, err := r2.err }

/-- A handler fragment that does nothing. -/
def StepResult.pure (s : WSStream) : StepResult :=
  { stream := s, events := [], app := [] }

/-- A handler fragment that aborts with an exception. -/
def StepResult.fail (s : WSStream) (e : PyErr) : StepResult :=
  { stream := s, events := [], app := [], err := some e }

/-- wsproto receive side: the connection state moves to REMOTE_CLOSING (or, if
a close was already sent, CLOSED) as the parser yields a CloseConnection
event; other events leave the state alone. -/
def recvTransition (cs : ConnState) : WSProtoEvent → ConnState
  | .closeConnection _ =>
    match cs with
    | .OPEN => .REMOTE_CLOSING
    | .LOCAL_CLOSING => .CLOSED
    | s => s
  | _ => cs

/-- wsproto `Connection.send`: messages, pings and pongs may only be sent on
an OPEN connection; a close may be sent when OPEN (moving to LOCAL_CLOSING)
or REMOTE_CLOSING (moving to CLOSED); anything else raises
LocalProtocolError. -/
def connSend (cs : ConnState) (ev : WSProtoEvent) : Except PyErr ConnState :=
  match ev with
  | .closeConnection _ =>
    match cs with
    | .OPEN => .ok .LOCAL_CLOSING
    | .REMOTE_CLOSING => .ok .CLOSED
    | _ => .error .localProtocolError
  | _ => if cs = .OPEN then .ok cs else .error .localProtocolError

/-- `WSStream._send_wsproto_event`: serialize the frame on the wsproto
connection and emit it as a Data protocol event. -/
def WSStream.send_wsproto_event (s : WSStream) (ev : WSProtoEvent) : StepResult :=
  match s.connection with
  | none => .fail s .attributeError
  | some cs =>
    match connSend cs ev with
    | .error e => .fail s e
    | .ok cs' =>
      { stream := { s with connection := some cs' },
        events := [.data s.stream_id ev], app := [] }

/-- `WSStream._send_error_response`: a Response with the given status,
content-length 0 and connection close, followed by EndBody.  (The access-log
call is a side effect on an injected collaborator and is not modelled.) -/
def WSStream.send_error_response (s : WSStream) (status_code : Nat) : StepResult :=
  { stream := s,
    events := [.response s.stream_id status_code
                 [("content-length", "0"), ("connection", "close")],
               .endBody s.stream_id],
    app := [] }

/-- The body of the `isinstance(event, Message)` branch of
`WSStream._handle_events`: extend the buffer; on FrameTooLarge send a 1009
close and stop the loop (the Bool is false when the loop must break or the
handler raised); on a finished message put websocket.receive to the app and
clear the buffer. -/
def WSStream.messageStep (cfg : Config) (s : WSStream) (d : BufVal) (fin : Bool) :
    StepResult × Bool :=
  match bufferExtend s.buffer cfg.websocket_max_message_size d with
  | .typeErr => (.fail s (.typeError "can only concatenate matching types"), false)
  | .tooLarge v =>
    (({ s with buffer := some v }).send_wsproto_event (.closeConnection MESSAGE_TOO_BIG),
     false)
  | .ok v =>
    let s' := { s with buffer := some v }
    if fin then
      if s'.app_put then
        ({ stream := { s' with buffer := none }, events := [],
           app := [bufferToMessage (some v)] }, true)
      else
        (.fail s' (.typeError "NoneType object is not callable"), false)
    else
      (.pure s', true)

/-- `WSStream._handle_events`: iterate over the events wsproto parsed out of
the received bytes.  Before each event is handled the wsproto connection
state advances as the parser yields it (`recvTransition`). -/
def WSStream.handleEvents (cfg : Config) (s : WSStream) : List WSProtoEvent → StepResult
  | [] => .pure s
  | ev :: rest =>
    let s := { s with connection := s.connection.map (fun cs => recvTransition cs ev) }
    match ev with
    | .textMessage d fin =>
      let rb := s.messageStep cfg (.str d) fin
      if rb.2 then rb.1.seq (fun s2 => s2.handleEvents cfg rest) else rb.1
    | .bytesMessage d fin =>
      let rb := s.messageStep cfg (.bin d) fin
      if rb.2 then rb.1.seq (fun s2 => s2.handleEvents cfg rest) else rb.1
    | .ping p =>
      (s.send_wsproto_event (.pong p)).seq (fun s2 => s2.handleEvents cfg rest)
    | .pong _ =>
      s.handleEvents cfg rest
    | .closeConnection c =>
      let echo : StepResult :=
        if s.connection = some ConnState.REMOTE_CLOSING then
          s.send_wsproto_event (.closeConnection c)
        else .pure s
      (echo.seq (fun s2 =>
        { stream := s2, events := [.streamClosed s2.stream_id], app := [] })).seq
        (fun s3 => s3.handleEvents cfg rest)

/-- Inbound protocol events delivered to `WSStream.handle`.  A `wsData` event
stands for a Body or Data event: its byte payload is fed to
`connection.receive_data` and is represented here by the list of wsproto
events the parser yields for it (an empty payload, which the source forwards
as None/end-of-stream, is the empty list or a close event, as wsproto
determines).  The Request's raw_path is omitted: it only feeds the scope
record, no field of which ws_stream.py consults again. -/
inductive InEvent
  | request (headers : List (String × String)) (http_version : String)
  | wsData (evs : List WSProtoEvent)
  | streamClosed
deriving DecidableEq, Repr

/-- `WSStream.handle`. -/
def WSStream.handle (cfg : Config) (s : WSStream) : InEvent → StepResult
  | .request headers http_version =>
    let hs := Handshake.ofHeaders headers http_version
    let s := { s with handshake := some hs }
    match hs.is_valid with
    | .error e => .fail s e
    | .ok false => s.send_error_response 400
    | .ok true =>
      { stream := { s with app_put := true }, events := [], app := [.connect] }
  | .wsData evs =>
    match s.connection with
    | none => .fail s .attributeError
    | some _ => s.handleEvents cfg evs
  | .streamClosed =>
    if s.app_put then
      { stream := { s with closed := true }, events := [], app := [.disconnect] }
    else
      .pure s

/-- A Python value supplied as the text field of websocket.send: a str or a
value of some other type. -/
inductive PyText
  | str (s : String)
  | notStr
deriving DecidableEq, Repr

/-- App-contract messages accepted by `WSStream.app_send`.  Optional dict
fields are Options; a missing text field of websocket.send is `none` (reading
it raises KeyError).  `otherType` stands for a message of any other type. -/
inductive AppMessage
  | accept (subprotocol : Option String)
  | httpResponseStart (status : Nat) (headers : List (String × String))
  | httpResponseBody (body : Option (List Nat)) (more_body : Option Bool)
  | wsSend (bytes : Option (List Nat)) (text : Option PyText)
  | close (code : Option Nat)
  | otherType
deriving DecidableEq, Repr

/-- Modelled from the spec: `suppress_body` lives in hypercorn/utils.py, which
is not under src/.  Spec section 4.1: "for HEAD requests and responses whose
status code suppresses a body (1xx, 204, 304), discard body bytes but still
emit EndBody". -/
def suppress_body (method : String) (status_code : Nat) : Bool :=
  method = "HEAD" ∨ (100 ≤ status_code ∧ status_code < 200) ∨
    status_code = 204 ∨ status_code = 304

/-- Modelled from the spec: `build_and_validate_headers` lives in
hypercorn/utils.py, which is not under src/.  Spec section 4.1 header
construction rules: lowercase names on output; a pseudo (colon-prefixed)
header name supplied by the app is invalid. -/
def build_and_validate_headers (headers : List (String × String)) :
    Except PyErr (List (String × String)) :=
  if headers.any (fun p => startsWithColon p.1) then .error .valueError
  else .ok (headers.map (fun p => (asciiLower p.1, p.2)))

/-- `WSStream._send_rejection`.  Reads the stored response (raising if
websocket.http.response.start never arrived); emits the Response headers only
from the HANDSHAKE state, moving to RESPONSE; emits the Body unless the
status suppresses it; on the final chunk emits EndBody and moves to
HTTPCLOSED. -/
def WSStream.send_rejection (s : WSStream)
    (body : Option (List Nat)) (more_body : Option Bool) : StepResult :=
  match s.response with
  | none => .fail s .attributeError
  | some (status, rheaders) =>
    let body_suppressed := suppress_body "GET" status
    let r1 : StepResult :=
      if s.state = .HANDSHAKE then
        match build_and_validate_headers rheaders with
        | .error e => .fail s e
        | .ok hs =>
          { stream := { s with state := .RESPONSE },
            events := [.response s.stream_id status hs], app := [] }
      else .pure s
    r1.seq (fun s2 =>
      let r2 : StepResult :=
        if body_suppressed then .pure s2
        else { stream := s2, events := [.body s2.stream_id (body.getD [])], app := [] }
      r2.seq (fun s3 =>
        if more_body.getD false then .pure s3
        else
          { stream := { s3 with state := .HTTPCLOSED },
            events := [.endBody s3.stream_id], app := [] }))

/-- `WSStream.app_send`.  `none` is the fault signal the spawner sends when
the app task raised.  (The config is only consulted by app_send for the
access logger, an injected collaborator that is not modelled.) -/
def WSStream.app_send (_cfg : Config) (s : WSStream) (message : Option AppMessage) :
    StepResult :=
  if s.closed then
    .pure s
  else
    match message with
    | none =>
      let r : StepResult :=
        if s.state = .HANDSHAKE then s.send_error_response 500
        else if s.state = .CONNECTED then
          s.send_wsproto_event (.closeConnection ABNORMAL_CLOSURE)
        else .pure s
      r.seq (fun s2 =>
        { stream := s2, events := [.streamClosed s2.stream_id], app := [] })
    | some m =>
      match m with
      | .accept sub =>
        if s.state = .HANDSHAKE then
          let s := { s with state := .CONNECTED }
          match s.handshake with
          | none => .fail s .attributeError
          | some h =>
            match h.accept sub with
            | .error e => .fail s e
            | .ok (status_code, headers, conn) =>
              { stream := { s with connection := some conn },
                events := [.response s.stream_id status_code headers], app := [] }
        else .fail s .unexpectedMessage
      | .httpResponseStart status headers =>
        if s.state = .HANDSHAKE then
          { stream := { s with response := some (status, headers) },
            events := [], app := [] }
        else .fail s .unexpectedMessage
      | .httpResponseBody body more_body =>
        if s.state = .HANDSHAKE ∨ s.state = .RESPONSE then
          s.send_rejection body more_body
        else .fail s .unexpectedMessage
      | .wsSend bs txt =>
        if s.state = .CONNECTED then
          match bs with
          | some b => s.send_wsproto_event (.bytesMessage b true)
          | none =>
            match txt with
            | none => .fail s .keyError
            | some .notStr => .fail s (.typeError "should be a str")
            | some (.str t) => s.send_wsproto_event (.textMessage t true)
        else .fail s .unexpectedMessage
      | .close code =>
        if s.state = .HANDSHAKE then
          let r := s.send_error_response 403
          { r with stream := { r.stream with state := .HTTPCLOSED } }
        else
          (s.send_wsproto_event (.closeConnection (code.getD NORMAL_CLOSURE))).seq
            (fun s2 =>
              { stream := { s2 with state := .CLOSED },
                events := [.endData s2.stream_id], app := [] })
      | .otherType => .fail s .unexpectedMessage

/-- One interaction with a WSStream: a protocol event handled by `handle`, or
an app message (or fault) handled by `app_send`. -/
inductive Op
  | fromWire (e : InEvent)
  | fromApp (m : Option AppMessage)
deriving DecidableEq, Repr

/-- Dispatch one interaction. -/
def WSStream.step (cfg : Config) (s : WSStream) : Op → StepResult
  | .fromWire e => s.handle cfg e
  | .fromApp m => s.app_send cfg m

/-- Run a sequence of interactions, stopping at the first unhandled
exception (which tears the connection down). -/
def WSStream.run (cfg : Config) (s : WSStream) : List Op → StepResult
  | [] => .pure s
  | op :: rest => (s.step cfg op).seq (fun s2 => s2.run cfg rest)

/-- Whether a protocol event is a Response (response headers frame). -/
def Event.isResponse : Event → Bool
  | .response .. => true
  | _ => false

/-- Number of Response events in an emitted event list. -/
def countResponses (evs : List Event) : Nat :=
  (evs.filter Event.isResponse).length

/-- Whether an interaction is the delivery of a Request event. -/
def Op.isRequest : Op → Bool
  | .fromWire (.request ..) => true
  | _ => false

/-- Whether an interaction comes from the app task. -/
def Op.isFromApp : Op → Bool
  | .fromApp _ => true
  | _ => false

/-- Whether an interaction is the app-fault signal (app_send of None). -/
def Op.isAppFault : Op → Bool
  | .fromApp none => true
  | _ => false

/-- After the spawner reports the app task's fault it never calls app_send
again. -/
def noAppAfterFault : List Op → Bool
  | [] => true
  | op :: rest =>
    if op.isAppFault then rest.all (fun o => !o.isFromApp)
    else noAppAfterFault rest

/-- Well-formed interaction sequences for one stream, as produced by the
protocol layer and the app spawner: the stream receives exactly one Request,
first; app messages exist only if the handshake was valid (spawn_app is only
called then, and only it hands out app_send); and nothing follows the app
fault signal from the app side. -/
def wfTrace (ops : List Op) : Bool :=
  match ops with
  | .fromWire (.request headers http_version) :: rest =>
    rest.all (fun o => !o.isRequest) &&
    (match (Handshake.ofHeaders headers http_version).is_valid with
     | .ok true => true
     | _ => rest.all (fun o => !o.isFromApp)) &&
    noAppAfterFault rest
  | _ => false

/-! Concrete inputs used by the witness and counterexample theorems below. -/

/-- A sample configuration (the spec leaves defaults to the out-of-scope
configuration layer). -/
def sampleConfig : Config := { websocket_max_message_size := 16777216 }

/-- A well-formed HTTP/1.1 WebSocket upgrade request's headers. -/
def goodHeaders : List (String × String) :=
  [("connection", "Upgrade"), ("upgrade", "websocket"),
   ("sec-websocket-key", "KEY"), ("sec-websocket-version", "13")]

/-- Headers whose sec-websocket-version is wrong (a validation failure the
claim covers) but which carry no upgrade header at all: `is_valid` reads
`self.upgrade.lower()` before the version check and crashes. -/
def c1BadHeaders : List (String × String) :=
  [("connection", "Upgrade"), ("sec-websocket-key", "KEY"),
   ("sec-websocket-version", "14")]

/-- Headers failing validation with the upgrade header present (wrong
version), where the 400 path does run. -/
def c1WitnessHeaders : List (String × String) :=
  [("connection", "Upgrade"), ("upgrade", "websocket"),
   ("sec-websocket-key", "KEY"), ("sec-websocket-version", "14")]

/-- A connected stream (valid handshake accepted, wsproto connection open). -/
def connectedStream : WSStream :=
  { stream_id := 3, state := .CONNECTED, closed := false, app_put := true,
    handshake := some (Handshake.ofHeaders goodHeaders "1.1"),
    connection := some .OPEN }

/-- A small message-size limit for the overflow scenarios. -/
def smallConfig : Config := { websocket_max_message_size := 2 }

/-- A configuration with the (spec-mandated) PerMessage-Deflate toggle on. -/
def pmdConfig : Config :=
  { websocket_max_message_size := 16777216, websocket_permessage_deflate := true }

/-- A valid HTTP/1.1 handshake in which the client offers the
permessage-deflate extension. -/
def c3Handshake : Handshake :=
  Handshake.ofHeaders
    [("connection", "Upgrade"), ("upgrade", "websocket"),
     ("sec-websocket-key", "KEY"), ("sec-websocket-version", "13"),
     ("sec-websocket-extensions", "permessage-deflate")]
    "1.1"

/-- A stream whose handshake succeeded and whose app has not answered yet. -/
def handshakenStream : WSStream :=
  { stream_id := 5, state := .HANDSHAKE, closed := false, app_put := true,
    handshake := some (Handshake.ofHeaders goodHeaders "1.1") }

/-- A stream whose handshake arrived over HTTP/2 (extended CONNECT, no key). -/
def h2Handshake : Handshake :=
  Handshake.ofHeaders [("sec-websocket-version", "13")] "2"

/-! ## Helper lemmas -/

theorem setHeader_http_version (h : Handshake) (p : String × String) :
    (h.setHeader p).http_version = h.http_version := by
  simp only [Handshake.setHeader]
  split_ifs <;> rfl

theorem ofHeaders_http_version (headers : List (String × String)) (v : String) :
    (Handshake.ofHeaders headers v).http_version = v := by
  suffices key : ∀ h0 : Handshake,
      (headers.foldl Handshake.setHeader h0).http_version = h0.http_version by
    exact key { http_version := v }
  induction headers with
  | nil => intro h0; rfl
  | cons p rest ih =>
    intro h0
    rw [List.foldl_cons, ih, setHeader_http_version]

theorem not_11_lt_11 : ¬ pyStrLt "1.1" "1.1" = true := by decide

/-- On HTTP/1.1, `is_valid` returns False whenever one of the claim's failure
conditions holds, provided the crashing configuration (key present,
connection carries upgrade, but no upgrade header) is excluded. -/
theorem is_valid_eq_false (h : Handshake) (hv : h.http_version = "1.1")
    (hfail : connectionHasUpgrade h.connection_tokens = false
      ∨ (∃ u, h.upgrade = some u ∧ asciiLower u ≠ "websocket")
      ∨ h.version ≠ some WEBSOCKET_VERSION
      ∨ h.key = none)
    (hsafe : h.key = none ∨ connectionHasUpgrade h.connection_tokens = false
      ∨ h.upgrade ≠ none) :
    h.is_valid = .ok false := by
  unfold Handshake.is_valid
  rw [hv, if_neg not_11_lt_11, if_pos rfl]
  by_cases hk : h.key = none
  · rw [if_pos hk]
  · rw [if_neg hk]
    by_cases hc : connectionHasUpgrade h.connection_tokens = false
    · rw [if_pos hc]
    · rw [if_neg hc]
      have hup : h.upgrade ≠ none := by
        rcases hsafe with h1 | h1 | h1
        · exact absurd h1 hk
        · exact absurd h1 hc
        · exact h1
      cases hu : h.upgrade with
      | none => exact absurd hu hup
      | some u =>
        have : asciiLower u ≠ "websocket" ∨ h.version ≠ some WEBSOCKET_VERSION := by
          rcases hfail with h1 | ⟨u', hu', h1⟩ | h1 | h1
          · exact absurd h1 hc
          · rw [hu] at hu'
            exact Or.inl ((Option.some.inj hu') ▸ h1)
          · exact Or.inr h1
          · exact absurd h1 hk
        rcases this with h1 | h1
        · simp [h1]
        · by_cases h2 : asciiLower u ≠ "websocket"
          · simp [h2]
          · simp [h1, h2]

theorem is_valid_key_of_11 (h : Handshake) (hv : h.http_version = "1.1")
    (hvalid : h.is_valid = .ok true) : h.key ≠ none := by
  unfold Handshake.is_valid at hvalid
  rw [hv, if_neg not_11_lt_11, if_pos rfl] at hvalid
  intro hk
  rw [if_pos hk] at hvalid
  exact absurd hvalid (by simp)

/-! ## Claim theorems -/

/-- C9: after a WSStream has handled a StreamClosed event its closed flag is
set, and from then on every app_send call — for any message, None included —
returns without emitting any protocol event, without raising, and without
changing the stream. -/
theorem C9_app_send_after_stream_closed (cfg : Config) (s : WSStream)
    (hsp : s.app_put = true) :
    (s.handle cfg .streamClosed).stream.closed = true
    ∧ ∀ m, (s.handle cfg .streamClosed).stream.app_send cfg m
        = StepResult.pure (s.handle cfg .streamClosed).stream := by
  constructor
  · simp [WSStream.handle, hsp]
  · intro m
    simp [WSStream.handle, hsp, WSStream.app_send]

/-- C9 witness: a concrete connected stream handles StreamClosed; afterwards
a websocket.send from the app is a silent no-op. -/
theorem C9_witness :
    connectedStream.app_put = true
    ∧ (connectedStream.handle sampleConfig .streamClosed).stream.closed = true
    ∧ (connectedStream.handle sampleConfig .streamClosed).stream.app_send
        sampleConfig (some (.wsSend none (some (.str "hi"))))
      = StepResult.pure (connectedStream.handle sampleConfig .streamClosed).stream :=
  ⟨by decide,
   (C9_app_send_after_stream_closed sampleConfig connectedStream (by decide)).1,
   (C9_app_send_after_stream_closed sampleConfig connectedStream (by decide)).2
     (some (.wsSend none (some (.str "hi"))))⟩

/-- C10: websocket.accept in the HANDSHAKE state with a subprotocol the
client did not offer — including when the client sent no
sec-websocket-protocol header at all — makes Handshake.accept raise, and
app_send emits no Response event for the acceptance. -/
theorem C10_accept_invalid_subprotocol (cfg : Config) (s : WSStream)
    (h : Handshake) (sub : String)
    (hclosed : s.closed = false) (hstate : s.state = .HANDSHAKE)
    (hh : s.handshake = some h)
    (hbad : h.subprotocols = none ∨ ∃ l, h.subprotocols = some l ∧ sub ∉ l) :
    (s.app_send cfg (some (.accept (some sub)))).events = []
    ∧ ∃ e, (s.app_send cfg (some (.accept (some sub)))).err = some e
        ∧ h.accept (some sub) = .error e := by
  have hacc : ∃ e, h.accept (some sub) = .error e := by
    unfold Handshake.accept
    rcases hbad with hnone | ⟨l, hl, hmem⟩
    · simp [hnone]
    · simp [hl, hmem]
  obtain ⟨e, he⟩ := hacc
  refine ⟨?_, e, ?_, he⟩ <;>
    simp [WSStream.app_send, hclosed, hstate, hh, he, StepResult.fail]

/-- C10 witness: accepting with subprotocol "chat" when the client offered no
sec-websocket-protocol header raises and emits nothing. -/
theorem C10_witness :
    handshakenStream.closed = false
    ∧ handshakenStream.state = ASGIWebsocketState.HANDSHAKE
    ∧ handshakenStream.handshake = some (Handshake.ofHeaders goodHeaders "1.1")
    ∧ (Handshake.ofHeaders goodHeaders "1.1").subprotocols = none
    ∧ (handshakenStream.app_send sampleConfig (some (.accept (some "chat")))).events = []
    ∧ ∃ e, (handshakenStream.app_send sampleConfig
        (some (.accept (some "chat")))).err = some e := by
  have h10 := C10_accept_invalid_subprotocol sampleConfig handshakenStream
    (Handshake.ofHeaders goodHeaders "1.1") "chat" (by decide) (by decide) (by decide)
    (Or.inl (by decide))
  exact ⟨by decide, by decide, by decide, by decide, h10.1,
    h10.2.elim (fun e hp => ⟨e, hp.1⟩)⟩

/-- C5: in the CONNECTED state, websocket.send with non-None bytes emits
exactly one BINARY frame carrying those bytes; with bytes None and a str
text it emits exactly one TEXT frame carrying the text; with bytes None and
a non-str text it raises TypeError and emits no frame. -/
theorem C5_websocket_send (cfg : Config) (s : WSStream)
    (hclosed : s.closed = false) (hstate : s.state = .CONNECTED)
    (hconn : s.connection = some .OPEN) :
    (∀ b txt, (s.app_send cfg (some (.wsSend (some b) txt))).events
        = [.data s.stream_id (.bytesMessage b true)]
      ∧ (s.app_send cfg (some (.wsSend (some b) txt))).err = none)
    ∧ (∀ t, (s.app_send cfg (some (.wsSend none (some (.str t))))).events
        = [.data s.stream_id (.textMessage t true)]
      ∧ (s.app_send cfg (some (.wsSend none (some (.str t))))).err = none)
    ∧ (s.app_send cfg (some (.wsSend none (some .notStr)))).events = []
    ∧ (s.app_send cfg (some (.wsSend none (some .notStr)))).err
        = some (.typeError "should be a str") := by
  refine ⟨fun b txt => ?_, fun t => ?_, ?_, ?_⟩ <;>
    simp [WSStream.app_send, hclosed, hstate, hconn, WSStream.send_wsproto_event,
      connSend, StepResult.fail]

/-- C5 witness: concrete sends on a connected stream. -/
theorem C5_witness :
    connectedStream.closed = false
    ∧ connectedStream.state = ASGIWebsocketState.CONNECTED
    ∧ connectedStream.connection = some ConnState.OPEN
    ∧ (connectedStream.app_send sampleConfig
        (some (.wsSend (some [104, 105]) none))).events
      = [.data 3 (.bytesMessage [104, 105] true)]
    ∧ (connectedStream.app_send sampleConfig
        (some (.wsSend none (some (.str "hi"))))).events
      = [.data 3 (.textMessage "hi" true)]
    ∧ (connectedStream.app_send sampleConfig (some (.wsSend none (some .notStr)))).events
      = [] := by
  have h5 := C5_websocket_send sampleConfig connectedStream
    (by decide) (by decide) (by decide)
  exact ⟨by decide, by decide, by decide,
    ((h5.1 [104, 105] none).1), ((h5.2.1 "hi").1), h5.2.2.1⟩

/-- C4: on the app-fault signal (app_send of None), a stream still in
HANDSHAKE emits a 500 Response with content-length 0 and connection close,
then EndBody, then StreamClosed for its stream id; a CONNECTED stream (live
wsproto connection) instead emits a close frame with the abnormal-closure
code, then StreamClosed. -/
theorem C4_app_fault (cfg : Config) (s : WSStream) (hclosed : s.closed = false) :
    (s.state = .HANDSHAKE →
      s.app_send cfg none
        = { stream := s,
            events := [.response s.stream_id 500
                         [("content-length", "0"), ("connection", "close")],
                       .endBody s.stream_id, .streamClosed s.stream_id],
            app := [], err := none })
    ∧ (s.state = .CONNECTED → s.connection = some .OPEN →
      s.app_send cfg none
        = { stream := { s with connection := some .LOCAL_CLOSING },
            events := [.data s.stream_id (.closeConnection ABNORMAL_CLOSURE),
                       .streamClosed s.stream_id],
            app := [], err := none }) := by
  constructor
  · intro hstate
    simp [WSStream.app_send, hclosed, hstate, WSStream.send_error_response,
      StepResult.seq]
  · intro hstate hconn
    simp [WSStream.app_send, hclosed, hstate, hconn, WSStream.send_wsproto_event,
      connSend, StepResult.seq]

/-- C4 witness: the fault signal on a concrete handshaking stream (500 then
EndBody then StreamClosed) and on a concrete connected stream (1006 close
frame then StreamClosed). -/
theorem C4_witness :
    handshakenStream.closed = false
    ∧ (handshakenStream.app_send sampleConfig none).events
      = [.response 5 500 [("content-length", "0"), ("connection", "close")],
         .endBody 5, .streamClosed 5]
    ∧ (connectedStream.app_send sampleConfig none).events
      = [.data 3 (.closeConnection ABNORMAL_CLOSURE), .streamClosed 3] := by
  have h4a := (C4_app_fault sampleConfig handshakenStream (by decide)).1 (by decide)
  have h4b := (C4_app_fault sampleConfig connectedStream (by decide)).2
    (by decide) (by decide)
  exact ⟨by decide, by rw [h4a]; decide, by rw [h4b]; decide⟩

/-- C8: accepting a valid handshake emits, on HTTP/1.1, a 101 Response whose
headers carry upgrade WebSocket, connection Upgrade and a
sec-websocket-accept token computed deterministically from the client key;
on any other HTTP version, a 200 Response with no upgrade or connection
header.  (Stated for an accept without subprotocol.) -/
theorem C8_accept_response (cfg : Config) (s : WSStream) (h : Handshake)
    (hclosed : s.closed = false) (hstate : s.state = .HANDSHAKE)
    (hh : s.handshake = some h) (hvalid : h.is_valid = .ok true) :
    (h.http_version = "1.1" →
      ∃ k, h.key = some k
        ∧ (s.app_send cfg (some (.accept none))).events
          = [.response s.stream_id 101
               [("sec-websocket-accept", generate_accept_token k),
                ("upgrade", "WebSocket"), ("connection", "Upgrade")]]
        ∧ (s.app_send cfg (some (.accept none))).err = none)
    ∧ (h.http_version ≠ "1.1" →
      ∃ hdrs, (s.app_send cfg (some (.accept none))).events
          = [.response s.stream_id 200 hdrs]
        ∧ (s.app_send cfg (some (.accept none))).err = none
        ∧ ∀ p ∈ hdrs, p.1 ≠ "upgrade" ∧ p.1 ≠ "connection") := by
  constructor
  · intro h11
    obtain ⟨k, hk⟩ : ∃ k, h.key = some k := by
      cases hkey : h.key with
      | none => exact absurd hkey (is_valid_key_of_11 h h11 hvalid)
      | some k => exact ⟨k, rfl⟩
    refine ⟨k, hk, ?_, ?_⟩ <;>
      simp [WSStream.app_send, hclosed, hstate, hh, Handshake.accept, hk, h11]
  · intro hnot
    cases hkey : h.key with
    | none =>
      refine ⟨[], ?_, ?_, by simp⟩ <;>
        simp [WSStream.app_send, hclosed, hstate, hh, Handshake.accept, hkey, hnot]
    | some k =>
      refine ⟨[("sec-websocket-accept", generate_accept_token k)], ?_, ?_, ?_⟩
      · simp [WSStream.app_send, hclosed, hstate, hh, Handshake.accept, hkey, hnot]
      · simp [WSStream.app_send, hclosed, hstate, hh, Handshake.accept, hkey, hnot]
      · intro p hp
        simp only [List.mem_singleton] at hp
        subst hp
        exact ⟨by simp, by simp⟩

/-- C8 witness: the concrete valid HTTP/1.1 handshake is accepted with a 101
and the deterministic accept token for the client key "KEY". -/
theorem C8_witness :
    (Handshake.ofHeaders goodHeaders "1.1").is_valid = .ok true
    ∧ (Handshake.ofHeaders goodHeaders "1.1").http_version = "1.1"
    ∧ (handshakenStream.app_send sampleConfig (some (.accept none))).events
      = [.response 5 101
           [("sec-websocket-accept", generate_accept_token "KEY"),
            ("upgrade", "WebSocket"), ("connection", "Upgrade")]] := by
  refine ⟨by decide, by decide, ?_⟩
  obtain ⟨k, hk, hev, -⟩ := (C8_accept_response sampleConfig handshakenStream
    (Handshake.ofHeaders goodHeaders "1.1") (by decide) (by decide) rfl
    (by decide)).1 (by decide)
  have hkk : k = "KEY" := by
    have hkey : (Handshake.ofHeaders goodHeaders "1.1").key = some "KEY" := by decide
    rw [hkey] at hk
    exact (Option.some.inj hk).symm
  subst hkk
  exact hev

/-- C1 counterexample: headers failing the claim's validation conditions (the
sec-websocket-version is "14", not the supported "13") but carrying no
upgrade header: handle raises AttributeError from
`self.upgrade.lower()` and emits no Response at all — not the claimed
400-plus-EndBody. -/
theorem C1_counterexample :
    (Handshake.ofHeaders c1BadHeaders "1.1").version ≠ some WEBSOCKET_VERSION
    ∧ ((WSStream.init 1).handle sampleConfig (.request c1BadHeaders "1.1")).events = []
    ∧ ((WSStream.init 1).handle sampleConfig (.request c1BadHeaders "1.1")).err
      = some PyErr.attributeError
    ∧ ((WSStream.init 1).handle sampleConfig
        (.request c1BadHeaders "1.1")).stream.app_put = false := by
  decide

/-- C1 (amended): on HTTP/1.1, whenever one of the claim's validation-failure
conditions holds — the connection header lacks an upgrade token, the upgrade
header is present but differs from websocket, the version differs from the
supported one, or the key is absent — and the crashing configuration is
excluded (an upgrade header is present whenever the key and connection
checks pass), handle synchronously emits a 400 Response followed by EndBody
and never spawns the app task. -/
theorem C1_handshake_failure_400 (cfg : Config) (sid : Nat)
    (headers : List (String × String))
    (hfail : connectionHasUpgrade
        (Handshake.ofHeaders headers "1.1").connection_tokens = false
      ∨ (∃ u, (Handshake.ofHeaders headers "1.1").upgrade = some u
          ∧ asciiLower u ≠ "websocket")
      ∨ (Handshake.ofHeaders headers "1.1").version ≠ some WEBSOCKET_VERSION
      ∨ (Handshake.ofHeaders headers "1.1").key = none)
    (hsafe : (Handshake.ofHeaders headers "1.1").key = none
      ∨ connectionHasUpgrade
          (Handshake.ofHeaders headers "1.1").connection_tokens = false
      ∨ (Handshake.ofHeaders headers "1.1").upgrade ≠ none) :
    (WSStream.init sid).handle cfg (.request headers "1.1")
      = { stream := { stream_id := sid,
                      handshake := some (Handshake.ofHeaders headers "1.1") },
          events := [.response sid 400
                       [("content-length", "0"), ("connection", "close")],
                     .endBody sid],
          app := [], err := none } := by
  have hiv := is_valid_eq_false (Handshake.ofHeaders headers "1.1")
    (ofHeaders_http_version headers "1.1") hfail hsafe
  simp [WSStream.handle, hiv, WSStream.send_error_response, WSStream.init]

/-- C1 witness: a request whose version header is "14" and whose upgrade
header is present yields the 400 Response, EndBody, and no app spawn. -/
theorem C1_witness :
    (Handshake.ofHeaders c1WitnessHeaders "1.1").version ≠ some WEBSOCKET_VERSION
    ∧ (Handshake.ofHeaders c1WitnessHeaders "1.1").upgrade ≠ none
    ∧ (WSStream.init 7).handle sampleConfig (.request c1WitnessHeaders "1.1")
      = { stream := { stream_id := 7,
                      handshake := some (Handshake.ofHeaders c1WitnessHeaders "1.1") },
          events := [.response 7 400
                       [("content-length", "0"), ("connection", "close")],
                     .endBody 7],
          app := [], err := none } :=
  ⟨by decide, by decide,
   C1_handshake_failure_400 sampleConfig 7 c1WitnessHeaders
     (Or.inr (Or.inr (Or.inl (by decide)))) (Or.inr (Or.inr (by decide)))⟩

/-- C3 counterexample: with the (spec-mandated, spec-modelled)
PerMessage-Deflate toggle enabled in the configuration and the client
offering permessage-deflate, accepting the handshake still produces no
sec-websocket-extensions header — `Handshake.accept` never consults the
configuration, its negotiation branch being the dead `if False and ...`.
So the offer does not happen "if and only if enabled in the
configuration". -/
theorem C3_counterexample :
    pmdConfig.websocket_permessage_deflate = true
    ∧ c3Handshake.extensions = some ["permessage-deflate"]
    ∧ c3Handshake.accept none
      = .ok (101, [("sec-websocket-accept", generate_accept_token "KEY"),
                   ("upgrade", "WebSocket"), ("connection", "Upgrade")], .OPEN)
    ∧ ([("sec-websocket-accept", generate_accept_token "KEY"),
        ("upgrade", "WebSocket"), ("connection", "Upgrade")].all
          (fun p => !(p.1 == "sec-websocket-extensions"))) = true := by
  decide

/-- C3 (amended): the PerMessage-Deflate extension is never offered in the
handshake response — whatever the configuration and whatever the client's
sec-websocket-extensions offer, no accepted handshake carries a
sec-websocket-extensions response header. -/
theorem C3_no_extensions_offered (h : Handshake) (sub : Option String)
    (status : Nat) (hdrs : List (String × String)) (conn : ConnState)
    (hacc : h.accept sub = .ok (status, hdrs, conn)) :
    ∀ p ∈ hdrs, p.1 ≠ "sec-websocket-extensions" := by
  unfold Handshake.accept at hacc
  rcases sub with _ | sp
  · simp only [] at hacc
    cases hkey : h.key <;> rw [hkey] at hacc <;>
      by_cases hv : h.http_version = "1.1" <;> simp [hv] at hacc <;>
      obtain ⟨-, h2, -⟩ := hacc <;> subst h2 <;>
      intro p hp <;> first
        | exact absurd hp (List.not_mem_nil p)
        | (fin_cases hp <;> simp)
  · rcases hsub : h.subprotocols with _ | sps <;> rw [hsub] at hacc
    · simp at hacc
    · by_cases hmem : sp ∈ sps
      · cases hkey : h.key <;> rw [hkey] at hacc <;>
          by_cases hv : h.http_version = "1.1" <;> simp [hmem, hv] at hacc <;>
          obtain ⟨-, h2, -⟩ := hacc <;> subst h2 <;>
          intro p hp <;> fin_cases hp <;> simp
      · simp [hmem] at hacc

/-- C3 amended-claim witness: accepting the concrete handshake above yields
headers none of which is sec-websocket-extensions. -/
theorem C3_witness :
    c3Handshake.accept none
      = .ok (101, [("sec-websocket-accept", generate_accept_token "KEY"),
                   ("upgrade", "WebSocket"), ("connection", "Upgrade")], .OPEN)
    ∧ ∀ p ∈ [("sec-websocket-accept", generate_accept_token "KEY"),
             ("upgrade", "WebSocket"), ("connection", "Upgrade")],
        p.1 ≠ "sec-websocket-extensions" :=
  ⟨by decide,
   C3_no_extensions_offered c3Handshake none 101
     [("sec-websocket-accept", generate_accept_token "KEY"),
      ("upgrade", "WebSocket"), ("connection", "Upgrade")] .OPEN (by decide)⟩

/-- C2 counterexample: a TEXT frame of three characters against a limit of
two makes the connected stream send the 1009 close frame, but the ASGI state
stays CONNECTED (it does not become CLOSED) and no websocket.disconnect is
delivered to the app task by this handler. -/
theorem C2_counterexample :
    (connectedStream.handle smallConfig
        (.wsData [.textMessage "abc" true])).events
      = [.data 3 (.closeConnection MESSAGE_TOO_BIG)]
    ∧ (connectedStream.handle smallConfig
        (.wsData [.textMessage "abc" true])).stream.state
      = ASGIWebsocketState.CONNECTED
    ∧ ASGIWebsocketState.CONNECTED ≠ ASGIWebsocketState.CLOSED
    ∧ (connectedStream.handle smallConfig
        (.wsData [.textMessage "abc" true])).app = [] := by
  decide

/-- C2 (amended): when appending an incoming text or binary fragment makes
the buffered message exceed websocket_max_message_size, the stream sends
exactly one close frame with the MESSAGE_TOO_BIG code (1009) and stops
processing the remaining events of the batch; the ASGI state is unchanged
(still CONNECTED) and no disconnect is delivered to the app task by this
handler. -/
theorem C2_message_too_big (cfg : Config) (s : WSStream) (v : BufVal)
    (fin : Bool) (rest : List WSProtoEvent)
    (_hstate : s.state = .CONNECTED) (hconn : s.connection = some .OPEN) :
    (∀ d, bufferExtend s.buffer cfg.websocket_max_message_size (.str d) = .tooLarge v →
      s.handle cfg (.wsData (.textMessage d fin :: rest))
        = { stream := { s with buffer := some v, connection := some .LOCAL_CLOSING },
            events := [.data s.stream_id (.closeConnection MESSAGE_TOO_BIG)],
            app := [], err := none })
    ∧ (∀ b, bufferExtend s.buffer cfg.websocket_max_message_size (.bin b) = .tooLarge v →
      s.handle cfg (.wsData (.bytesMessage b fin :: rest))
        = { stream := { s with buffer := some v, connection := some .LOCAL_CLOSING },
            events := [.data s.stream_id (.closeConnection MESSAGE_TOO_BIG)],
            app := [], err := none }) := by
  constructor <;> intro d hov <;>
    simp [WSStream.handle, hconn, WSStream.handleEvents, recvTransition,
      WSStream.messageStep, hov, WSStream.send_wsproto_event, connSend]

/-- C2 amended-claim witness: the concrete overflow of the counterexample,
via the general theorem. -/
theorem C2_witness :
    connectedStream.state = ASGIWebsocketState.CONNECTED
    ∧ connectedStream.connection = some ConnState.OPEN
    ∧ bufferExtend connectedStream.buffer smallConfig.websocket_max_message_size
        (.str "abc") = .tooLarge (.str "abc")
    ∧ connectedStream.handle smallConfig (.wsData [.textMessage "abc" true])
      = { stream :=
            { connectedStream with
              buffer := some (.str "abc"), connection := some .LOCAL_CLOSING },
          events := [.data 3 (.closeConnection MESSAGE_TOO_BIG)],
          app := [], err := none } :=
  ⟨by decide, by decide, by decide,
   (C2_message_too_big smallConfig connectedStream (.str "abc") true []
     (by decide) (by decide)).1 "abc" (by decide)⟩

/-- C7: a rejection response whose status suppresses a body (1xx, 204, 304)
emits no Body event but still emits EndBody when more_body is false; the
state moves HANDSHAKE to RESPONSE on the headers and RESPONSE to HTTPCLOSED
on the final body chunk. -/
theorem C7_rejection_suppressed_body (cfg : Config) (status : Nat)
    (rheaders vheaders : List (String × String)) (body : Option (List Nat))
    (hsup : suppress_body "GET" status = true)
    (hval : build_and_validate_headers rheaders = .ok vheaders) :
    (∀ s : WSStream, s.closed = false → s.state = .HANDSHAKE →
      s.app_send cfg (some (.httpResponseStart status rheaders))
        = { stream := { s with response := some (status, rheaders) },
            events := [], app := [], err := none })
    ∧ (∀ s1 : WSStream, s1.closed = false → s1.state = .HANDSHAKE →
        s1.response = some (status, rheaders) →
        (s1.app_send cfg (some (.httpResponseBody body (some false)))
          = { stream := { s1 with state := .HTTPCLOSED },
              events := [.response s1.stream_id status vheaders,
                         .endBody s1.stream_id],
              app := [], err := none })
        ∧ (s1.app_send cfg (some (.httpResponseBody body (some true)))
          = { stream := { s1 with state := .RESPONSE },
              events := [.response s1.stream_id status vheaders],
              app := [], err := none }))
    ∧ (∀ s2 : WSStream, s2.closed = false → s2.state = .RESPONSE →
        s2.response = some (status, rheaders) →
        s2.app_send cfg (some (.httpResponseBody body (some false)))
          = { stream := { s2 with state := .HTTPCLOSED },
              events := [.endBody s2.stream_id], app := [], err := none }) := by
  refine ⟨fun s hc hs => ?_, fun s1 hc hs hr => ⟨?_, ?_⟩, fun s2 hc hs hr => ?_⟩
  · simp [WSStream.app_send, hc, hs]
  · simp [WSStream.app_send, hc, hs, hr, WSStream.send_rejection, hsup, hval,
      StepResult.seq, StepResult.pure]
  · simp [WSStream.app_send, hc, hs, hr, WSStream.send_rejection, hsup, hval,
      StepResult.seq, StepResult.pure]
  · simp [WSStream.app_send, hc, hs, hr, WSStream.send_rejection, hsup, hval,
      StepResult.seq, StepResult.pure]

/-- C7 witness: a 204 rejection on a concrete handshaking stream — Response
then EndBody without a Body event, ending HTTPCLOSED; and with more_body
true, Response only, ending RESPONSE. -/
theorem C7_witness :
    suppress_body "GET" 204 = true
    ∧ build_and_validate_headers [("X-A", "b")] = .ok [("x-a", "b")]
    ∧ (handshakenStream.app_send sampleConfig
        (some (.httpResponseStart 204 [("X-A", "b")])))
      = { stream := { handshakenStream with response := some (204, [("X-A", "b")]) },
          events := [], app := [], err := none }
    ∧ ({ handshakenStream with
         response := some (204, [("X-A", "b")]) } : WSStream).app_send sampleConfig
        (some (.httpResponseBody (some [104, 105]) (some false)))
      = { stream :=
            { handshakenStream with
              response := some (204, [("X-A", "b")]), state := .HTTPCLOSED },
          events := [.response 5 204 [("x-a", "b")], .endBody 5],
          app := [], err := none } := by
  have h7 := C7_rejection_suppressed_body sampleConfig 204 [("X-A", "b")]
    [("x-a", "b")] (some [104, 105]) (by decide) (by decide)
  refine ⟨by decide, by decide, h7.1 handshakenStream (by decide) (by decide), ?_⟩
  exact (h7.2.1 { handshakenStream with response := some (204, [("X-A", "b")]) }
    (by decide) (by decide) rfl).1

/-! ## Response-counting lemmas for the at-most-one-Response invariant (C6) -/

theorem countResponses_append (a b : List Event) :
    countResponses (a ++ b) = countResponses a + countResponses b := by
  simp [countResponses, List.filter_append]

theorem countResponses_seq (r : StepResult) (f : WSStream → StepResult) :
    countResponses (r.seq f).events
      = countResponses r.events
        + (match r.err with
           | none => countResponses (f r.stream).events
           | some _ => 0) := by
  unfold StepResult.seq
  cases h : r.err <;> simp [h, countResponses_append]

theorem seq_stream (r : StepResult) (f : WSStream → StepResult) :
    (r.seq f).stream
      = (match r.err with
         | none => (f r.stream).stream
         | some _ => r.stream) := by
  unfold StepResult.seq
  cases h : r.err <;> simp [h]

/-- Composition preserves the no-Response, state-preserving frame. -/
theorem frame_seq {r : StepResult} {f : WSStream → StepResult}
    {st : ASGIWebsocketState}
    (hr : countResponses r.events = 0 ∧ r.stream.state = st)
    (hf : ∀ s2, countResponses (f s2).events = 0 ∧ (f s2).stream.state = s2.state) :
    countResponses (r.seq f).events = 0 ∧ (r.seq f).stream.state = st := by
  unfold StepResult.seq
  cases h : r.err with
  | none =>
    simp [countResponses_append, hr.1, (hf r.stream).1, (hf r.stream).2, hr.2]
  | some e => simp [hr.1, hr.2]

theorem send_wsproto_event_frame (s : WSStream) (ev : WSProtoEvent) :
    countResponses (s.send_wsproto_event ev).events = 0
    ∧ (s.send_wsproto_event ev).stream.state = s.state := by
  unfold WSStream.send_wsproto_event
  cases hc : s.connection with
  | none => simp [StepResult.fail, countResponses]
  | some cs =>
    cases hs : connSend cs ev with
    | error e => simp [hs, StepResult.fail, countResponses]
    | ok cs2 => simp [hs, countResponses, Event.isResponse]

theorem messageStep_frame (cfg : Config) (s : WSStream) (d : BufVal) (fin : Bool) :
    countResponses (s.messageStep cfg d fin).1.events = 0
    ∧ (s.messageStep cfg d fin).1.stream.state = s.state := by
  unfold WSStream.messageStep
  cases hb : bufferExtend s.buffer cfg.websocket_max_message_size d with
  | typeErr => simp [StepResult.fail, countResponses]
  | tooLarge v =>
    have hfr := send_wsproto_event_frame { s with buffer := some v }
      (.closeConnection MESSAGE_TOO_BIG)
    simpa using hfr
  | ok v =>
    cases fin <;> cases hsp : s.app_put <;>
      simp [hsp, StepResult.fail, StepResult.pure, countResponses]

theorem messageBranch_frame (cfg : Config) (s1 : WSStream) (d : BufVal)
    (fin : Bool) (k : WSStream → StepResult)
    (hk : ∀ s2, countResponses (k s2).events = 0 ∧ (k s2).stream.state = s2.state) :
    countResponses (if (s1.messageStep cfg d fin).2
        then (s1.messageStep cfg d fin).1.seq k
        else (s1.messageStep cfg d fin).1).events = 0
    ∧ (if (s1.messageStep cfg d fin).2
        then (s1.messageStep cfg d fin).1.seq k
        else (s1.messageStep cfg d fin).1).stream.state = s1.state := by
  by_cases h2 : (s1.messageStep cfg d fin).2 = true
  · simp only [h2, if_true]
    exact frame_seq (messageStep_frame cfg s1 d fin) hk
  · simp only [Bool.not_eq_true] at h2
    simp only [h2, Bool.false_eq_true, if_false]
    exact messageStep_frame cfg s1 d fin

/-- The wsproto event loop emits no Response and leaves the ASGI state
unchanged, whatever the events. -/
theorem handleEvents_frame (cfg : Config) :
    ∀ (evs : List WSProtoEvent) (s : WSStream),
      countResponses (s.handleEvents cfg evs).events = 0
      ∧ (s.handleEvents cfg evs).stream.state = s.state := by
  intro evs
  induction evs with
  | nil => intro s; simp [WSStream.handleEvents, StepResult.pure, countResponses]
  | cons ev rest ih =>
    intro s
    cases ev with
    | textMessage d fin =>
      simp only [WSStream.handleEvents]
      exact messageBranch_frame cfg _ (.str d) fin _ ih
    | bytesMessage d fin =>
      simp only [WSStream.handleEvents]
      exact messageBranch_frame cfg _ (.bin d) fin _ ih
    | ping p =>
      simp only [WSStream.handleEvents]
      exact frame_seq (send_wsproto_event_frame _ (.pong p)) ih
    | pong p =>
      simp only [WSStream.handleEvents]
      exact ih _
    | closeConnection c =>
      simp only [WSStream.handleEvents]
      refine frame_seq (frame_seq ?_ ?_) ih
      · split
        · exact send_wsproto_event_frame _ (.closeConnection c)
        · exact ⟨rfl, rfl⟩
      · intro s2
        exact ⟨rfl, rfl⟩

theorem send_rejection_nonhandshake (s : WSStream) (body : Option (List Nat))
    (more : Option Bool) (h : s.state ≠ .HANDSHAKE) :
    countResponses (s.send_rejection body more).events = 0
    ∧ (s.send_rejection body more).stream.state ≠ .HANDSHAKE := by
  unfold WSStream.send_rejection
  cases hr : s.response with
  | none => simp [StepResult.fail, countResponses, h]
  | some pr =>
    obtain ⟨status, rheaders⟩ := pr
    simp only [h, if_false, ite_false, if_neg]
    constructor
    · rw [countResponses_seq]
      simp only [StepResult.pure]
      rw [countResponses_seq]
      split_ifs <;> simp [countResponses, Event.isResponse, StepResult.pure]
    · rw [seq_stream]
      simp only [StepResult.pure]
      rw [seq_stream]
      split_ifs <;> simp [StepResult.pure, h]

theorem send_rejection_handshake (s : WSStream) (body : Option (List Nat))
    (more : Option Bool) (hst : s.state = .HANDSHAKE) :
    (countResponses (s.send_rejection body more).events = 0
      ∧ (s.send_rejection body more).err.isSome = true)
    ∨ (countResponses (s.send_rejection body more).events ≤ 1
      ∧ (s.send_rejection body more).stream.state ≠ .HANDSHAKE) := by
  unfold WSStream.send_rejection
  cases hr : s.response with
  | none => left; simp [StepResult.fail, countResponses]
  | some pr =>
    obtain ⟨status, rheaders⟩ := pr
    cases hv : build_and_validate_headers rheaders with
    | error e =>
      left
      simp [hst, hv, StepResult.seq, StepResult.fail, countResponses]
    | ok vh =>
      right
      constructor
      · rw [countResponses_seq]
        simp only [hst, if_pos, hv]
        rw [countResponses_seq]
        split_ifs <;>
          simp [countResponses, Event.isResponse, StepResult.pure]
      · rw [seq_stream]
        simp only [hst, if_pos, hv]
        rw [seq_stream]
        split_ifs <;> simp [StepResult.pure]

theorem app_send_nonhandshake (cfg : Config) (s : WSStream) (m : Option AppMessage)
    (h : s.state ≠ .HANDSHAKE) :
    countResponses (s.app_send cfg m).events = 0
    ∧ (s.app_send cfg m).stream.state ≠ .HANDSHAKE := by
  unfold WSStream.app_send
  cases hcl : s.closed with
  | true => simp [StepResult.pure, countResponses, h]
  | false =>
    simp only [Bool.false_eq_true, if_false, ite_false, if_neg]
    cases m with
    | none =>
      have key : countResponses ((if s.state = ASGIWebsocketState.HANDSHAKE then
            s.send_error_response 500
          else if s.state = ASGIWebsocketState.CONNECTED then
            s.send_wsproto_event (.closeConnection ABNORMAL_CLOSURE)
          else StepResult.pure s).seq (fun s2 =>
            { stream := s2, events := [.streamClosed s2.stream_id], app := [] })).events = 0
          ∧ ((if s.state = ASGIWebsocketState.HANDSHAKE then
            s.send_error_response 500
          else if s.state = ASGIWebsocketState.CONNECTED then
            s.send_wsproto_event (.closeConnection ABNORMAL_CLOSURE)
          else StepResult.pure s).seq (fun s2 =>
            { stream := s2, events := [.streamClosed s2.stream_id], app := [] })).stream.state
            = s.state := by
        refine frame_seq ?_ (fun s2 => ⟨?_, rfl⟩)
        · rw [if_neg h]
          split_ifs
          · exact (send_wsproto_event_frame s _)
          · exact ⟨rfl, rfl⟩
        · simp [countResponses, Event.isResponse]
      refine ⟨key.1, ?_⟩
      rw [key.2]
      exact h
    | some msg =>
      cases msg with
      | accept sub => simp [h, StepResult.fail, countResponses]
      | httpResponseStart status headers => simp [h, StepResult.fail, countResponses]
      | httpResponseBody body more =>
        by_cases h2 : s.state = ASGIWebsocketState.RESPONSE
        · simp only [h, h2, false_or, or_true, if_pos, ite_true]
          exact send_rejection_nonhandshake s body more h
        · simp [h, h2, StepResult.fail, countResponses]
      | wsSend bs txt =>
        by_cases h2 : s.state = ASGIWebsocketState.CONNECTED
        · simp only [h2, if_pos, ite_true]
          cases bs with
          | some b =>
            have hfr := send_wsproto_event_frame s (.bytesMessage b true)
            exact ⟨hfr.1, by rw [hfr.2]; exact h⟩
          | none =>
            cases txt with
            | none => simp [StepResult.fail, countResponses, h]
            | some t =>
              cases t with
              | str t0 =>
                have hfr := send_wsproto_event_frame s (.textMessage t0 true)
                exact ⟨hfr.1, by rw [hfr.2]; exact h⟩
              | notStr => simp [StepResult.fail, countResponses, h]
        · simp [h2, StepResult.fail, countResponses, h]
      | close code =>
        simp only [h, if_false, ite_false, if_neg]
        constructor
        · rw [countResponses_seq]
          have hfr := send_wsproto_event_frame s
            (.closeConnection (code.getD NORMAL_CLOSURE))
          cases herr : (s.send_wsproto_event
              (.closeConnection (code.getD NORMAL_CLOSURE))).err with
          | none =>
            simp only [herr]
            rw [hfr.1]
            simp [countResponses, Event.isResponse]
          | some e =>
            simp only [herr]
            rw [hfr.1]
        · rw [seq_stream]
          have hfr := send_wsproto_event_frame s
            (.closeConnection (code.getD NORMAL_CLOSURE))
          cases herr : (s.send_wsproto_event
              (.closeConnection (code.getD NORMAL_CLOSURE))).err with
          | none => simp [herr]
          | some e =>
            simp only [herr]
            rw [hfr.2]
            exact h
      | otherType => simp [h, StepResult.fail, countResponses]

theorem app_send_some_handshake (cfg : Config) (s : WSStream) (msg : AppMessage)
    (hst : s.state = .HANDSHAKE) (hc : s.closed = false) :
    (countResponses (s.app_send cfg (some msg)).events = 0
      ∧ (s.app_send cfg (some msg)).stream.state = .HANDSHAKE)
    ∨ (countResponses (s.app_send cfg (some msg)).events = 0
      ∧ (s.app_send cfg (some msg)).err.isSome = true)
    ∨ (countResponses (s.app_send cfg (some msg)).events ≤ 1
      ∧ (s.app_send cfg (some msg)).stream.state ≠ .HANDSHAKE) := by
  unfold WSStream.app_send
  cases msg with
  | accept sub =>
    cases hh : s.handshake with
    | none =>
      right; left
      simp [hc, hst, hh, StepResult.fail, countResponses]
    | some h =>
      cases hacc : h.accept sub with
      | error e =>
        right; left
        simp [hc, hst, hh, hacc, StepResult.fail, countResponses]
      | ok t =>
        obtain ⟨status, hdrs, conn⟩ := t
        right; right
        simp [hc, hst, hh, hacc, countResponses, Event.isResponse]
  | httpResponseStart status headers =>
    left
    simp [hc, hst, countResponses]
  | httpResponseBody body more =>
    have hcond : s.state = ASGIWebsocketState.HANDSHAKE
        ∨ s.state = ASGIWebsocketState.RESPONSE := Or.inl hst
    simp only [hc, Bool.false_eq_true, if_false, ite_false, hcond, if_pos, ite_true]
    rcases send_rejection_handshake s body more hst with hcase | hcase
    · right; left; exact hcase
    · right; right; exact hcase
  | wsSend bs txt =>
    right; left
    simp [hc, hst, StepResult.fail, countResponses]
  | close code =>
    right; right
    simp [hc, hst, WSStream.send_error_response, countResponses, Event.isResponse]
  | otherType =>
    right; left
    simp [hc, hst, StepResult.fail, countResponses]

/-- The app-fault signal on an open handshaking stream: exactly one Response
(the 500), no error, state left in HANDSHAKE. -/
theorem app_send_fault_handshake (cfg : Config) (s : WSStream)
    (hst : s.state = .HANDSHAKE) (hc : s.closed = false) :
    countResponses (s.app_send cfg none).events = 1
    ∧ (s.app_send cfg none).err = none := by
  simp [WSStream.app_send, hc, hst, WSStream.send_error_response, StepResult.seq,
    countResponses, Event.isResponse]

theorem step_nonhandshake (cfg : Config) (s : WSStream) (op : Op)
    (hop : op.isRequest = false) (h : s.state ≠ .HANDSHAKE) :
    countResponses (s.step cfg op).events = 0
    ∧ (s.step cfg op).stream.state ≠ .HANDSHAKE := by
  cases op with
  | fromWire e =>
    cases e with
    | request headers v => simp [Op.isRequest] at hop
    | wsData evs =>
      unfold WSStream.step WSStream.handle
      cases hcn : s.connection with
      | none => simp [StepResult.fail, countResponses, h]
      | some cs =>
        simp only [hcn]
        have hfr := handleEvents_frame cfg evs s
        exact ⟨hfr.1, by rw [hfr.2]; exact h⟩
    | streamClosed =>
      unfold WSStream.step WSStream.handle
      cases hsp : s.app_put <;> simp [hsp, StepResult.pure, countResponses, h]
  | fromApp m => exact app_send_nonhandshake cfg s m h

theorem run_nonhandshake (cfg : Config) : ∀ (ops : List Op) (s : WSStream),
    ops.all (fun o => !o.isRequest) = true →
    s.state ≠ .HANDSHAKE →
    countResponses (s.run cfg ops).events = 0 := by
  intro ops
  induction ops with
  | nil => intro s _ _; simp [WSStream.run, StepResult.pure, countResponses]
  | cons op rest ih =>
    intro s hall h
    rw [List.all_cons, Bool.and_eq_true] at hall
    have hop : op.isRequest = false := by
      have := hall.1; simp at this; exact this
    have hstep := step_nonhandshake cfg s op hop h
    simp only [WSStream.run]
    rw [countResponses_seq, hstep.1]
    cases herr : (s.step cfg op).err with
    | none =>
      simp only [herr]
      rw [ih _ hall.2 hstep.2]
    | some e => simp [herr]

theorem step_wireonly (cfg : Config) (s : WSStream) (op : Op)
    (hreq : op.isRequest = false) (happ : op.isFromApp = false) :
    countResponses (s.step cfg op).events = 0 := by
  cases op with
  | fromWire e =>
    cases e with
    | request headers v => simp [Op.isRequest] at hreq
    | wsData evs =>
      unfold WSStream.step WSStream.handle
      cases hcn : s.connection with
      | none => simp [StepResult.fail, countResponses]
      | some cs =>
        simp only [hcn]
        exact (handleEvents_frame cfg evs s).1
    | streamClosed =>
      unfold WSStream.step WSStream.handle
      cases hsp : s.app_put <;> simp [hsp, StepResult.pure, countResponses]
  | fromApp m => simp [Op.isFromApp] at happ

theorem run_wireonly (cfg : Config) : ∀ (ops : List Op) (s : WSStream),
    ops.all (fun o => !o.isRequest) = true →
    ops.all (fun o => !o.isFromApp) = true →
    countResponses (s.run cfg ops).events = 0 := by
  intro ops
  induction ops with
  | nil => intro s _ _; simp [WSStream.run, StepResult.pure, countResponses]
  | cons op rest ih =>
    intro s hreq happ
    rw [List.all_cons, Bool.and_eq_true] at hreq happ
    have hr : op.isRequest = false := by
      have := hreq.1; simp at this; exact this
    have ha : op.isFromApp = false := by
      have := happ.1; simp at this; exact this
    simp only [WSStream.run]
    rw [countResponses_seq, step_wireonly cfg s op hr ha]
    cases herr : (s.step cfg op).err with
    | none =>
      simp only [herr]
      rw [ih _ hreq.2 happ.2]
    | some e => simp [herr]

/-- Core induction: from the HANDSHAKE state, a request-free, fault-closed
interaction sequence emits at most one Response. -/
theorem run_handshake_le_one (cfg : Config) : ∀ (ops : List Op) (s : WSStream),
    ops.all (fun o => !o.isRequest) = true →
    noAppAfterFault ops = true →
    s.state = .HANDSHAKE →
    countResponses (s.run cfg ops).events ≤ 1 := by
  intro ops
  induction ops with
  | nil => intro s _ _ _; simp [WSStream.run, StepResult.pure, countResponses]
  | cons op rest ih =>
    intro s hall hfa hst
    rw [List.all_cons, Bool.and_eq_true] at hall
    have hop : op.isRequest = false := by
      have := hall.1; simp at this; exact this
    simp only [WSStream.run]
    rw [countResponses_seq]
    cases op with
    | fromWire e =>
      have hfa2 : noAppAfterFault rest = true := by
        cases e <;> simpa [noAppAfterFault, Op.isAppFault] using hfa
      cases e with
      | request headers v => simp [Op.isRequest] at hop
      | wsData evs =>
        unfold WSStream.step WSStream.handle
        cases hcn : s.connection with
        | none => simp [hcn, StepResult.fail, countResponses]
        | some cs =>
          simp only [hcn]
          have hfr := handleEvents_frame cfg evs s
          rw [hfr.1]
          cases herr : (s.handleEvents cfg evs).err with
          | none =>
            simp only [herr]
            have hrec := ih (s.handleEvents cfg evs).stream hall.2 hfa2
              (by rw [hfr.2]; exact hst)
            omega
          | some e => simp [herr]
      | streamClosed =>
        unfold WSStream.step WSStream.handle
        cases hsp : s.app_put with
        | true =>
          have hrec := ih { s with closed := true, app_put := true }
            hall.2 hfa2 hst
          simpa [countResponses] using hrec
        | false =>
          have hrec := ih s hall.2 hfa2 hst
          simpa [StepResult.pure, countResponses] using hrec
    | fromApp m =>
      cases hcl : s.closed with
      | true =>
        have hstep : s.app_send cfg m = StepResult.pure s := by
          unfold WSStream.app_send; simp [hcl]
        rw [show s.step cfg (Op.fromApp m) = s.app_send cfg m from rfl, hstep]
        cases m with
        | none =>
          have hrest : rest.all (fun o => !o.isFromApp) = true := by
            simpa [noAppAfterFault, Op.isAppFault] using hfa
          rw [show (StepResult.pure s).err = none from rfl]  -- reduce guard
          simp only [StepResult.pure]
          rw [run_wireonly cfg rest s hall.2 hrest]
          simp [countResponses]
        | some msg =>
          have hfa2 : noAppAfterFault rest = true := by
            simpa [noAppAfterFault, Op.isAppFault] using hfa
          have hrec := ih s hall.2 hfa2 hst
          simpa [StepResult.pure, countResponses] using hrec
      | false =>
        cases m with
        | none =>
          have hrest : rest.all (fun o => !o.isFromApp) = true := by
            simpa [noAppAfterFault, Op.isAppFault] using hfa
          have hf := app_send_fault_handshake cfg s hst hcl
          rw [show s.step cfg (Op.fromApp none) = s.app_send cfg none from rfl,
            hf.1]
          simp only [hf.2]
          rw [run_wireonly cfg rest _ hall.2 hrest]
        | some msg =>
          have hfa2 : noAppAfterFault rest = true := by
            simpa [noAppAfterFault, Op.isAppFault] using hfa
          rw [show s.step cfg (Op.fromApp (some msg)) = s.app_send cfg (some msg)
            from rfl]
          rcases app_send_some_handshake cfg s msg hst hcl with hca | hca | hca
          · rw [hca.1]
            cases herr : (s.app_send cfg (some msg)).err with
            | none =>
              simp only [herr]
              have hrec := ih _ hall.2 hfa2 hca.2
              omega
            | some e => simp [herr]
          · rw [hca.1]
            cases herr : (s.app_send cfg (some msg)).err with
            | none => rw [herr] at hca; simp at hca
            | some e => simp [herr]
          · cases herr : (s.app_send cfg (some msg)).err with
            | none =>
              simp only [herr]
              rw [run_nonhandshake cfg rest _ hall.2 hca.2]
              omega
            | some e =>
              simp only [herr]
              omega

/-- C6: across any well-formed interaction sequence — one Request first, app
messages only when the handshake was valid, nothing from the app after its
fault signal — a WSStream emits at most one Response event over its
lifetime, across all paths (handshake-failure 400, accept 101/200,
rejection response, 403 on close during handshake, 500 on app fault). -/
theorem C6_at_most_one_response (cfg : Config) (sid : Nat) (ops : List Op)
    (hwf : wfTrace ops = true) :
    countResponses ((WSStream.init sid).run cfg ops).events ≤ 1 := by
  cases ops with
  | nil => simp [wfTrace] at hwf
  | cons op rest =>
    cases op with
    | fromApp m => simp [wfTrace] at hwf
    | fromWire e =>
      cases e with
      | wsData evs => simp [wfTrace] at hwf
      | streamClosed => simp [wfTrace] at hwf
      | request headers v =>
        unfold wfTrace at hwf
        rw [Bool.and_eq_true, Bool.and_eq_true] at hwf
        obtain ⟨⟨hnoreq, hvalid⟩, hfa⟩ := hwf
        simp only [WSStream.run]
        rw [countResponses_seq]
        unfold WSStream.step WSStream.handle
        cases hv : (Handshake.ofHeaders headers v).is_valid with
        | error e => simp [hv, StepResult.fail, countResponses]
        | ok b =>
          cases b with
          | false =>
            have hrest : rest.all (fun o => !o.isFromApp) = true := by
              rw [hv] at hvalid; simpa using hvalid
            simp only [hv, WSStream.send_error_response]
            rw [run_wireonly cfg rest _ hnoreq hrest]
            simp [countResponses, Event.isResponse]
          | true =>
            simp only [hv]
            have hrec := run_handshake_le_one cfg rest
              { stream_id := sid, app_put := true,
                handshake := some (Handshake.ofHeaders headers v) }
              hnoreq hfa rfl
            simpa [WSStream.init, countResponses] using hrec

/-- C6 witness: a concrete well-formed trace — valid handshake request,
accept, one send — emits at most one Response. -/
theorem C6_witness :
    wfTrace [Op.fromWire (.request goodHeaders "1.1"),
             Op.fromApp (some (.accept none)),
             Op.fromApp (some (.wsSend none (some (.str "hi"))))] = true
    ∧ countResponses ((WSStream.init 1).run sampleConfig
        [Op.fromWire (.request goodHeaders "1.1"),
         Op.fromApp (some (.accept none)),
         Op.fromApp (some (.wsSend none (some (.str "hi"))))]).events ≤ 1 :=
  ⟨by decide, C6_at_most_one_response sampleConfig 1 _ (by decide)⟩

end WsStream
